import Mathlib

/-!
Verification development for the Flora Darwin-Core Excel exporter
(`src/main.py`).  The script fetches three Firestore collections
(`campana`, `estacion`, `registro`) filtered by a campaign id, reshapes
them into three fixed-layout tables, and writes them into a template
workbook (sheets `Campaña`, `EstacionReplica`, `Ocurrencia`).

The embedding below models the observable values the script manipulates:
Firestore documents as association lists of field name to value, pandas
cells as `Option Value` (with `none` the NaN cell arising from a missing
key), and worksheets as lists of rows.  Load-bearing pandas semantics
used by the model, each noted where used:
  * `DataFrame.groupby(col).cumcount()` with the default `dropna=True`
    leaves a NaN result on rows whose group key is missing;
  * `Series.astype(str)` applies Python `str`, so `None` becomes the
    string `"None"` and a NaN cell becomes `"nan"`;
  * `DataFrame.merge(..., how="left")` keeps left rows in order and
    emits one row per matching right row (right order), or a single
    all-NaN-augmented row when nothing matches.
-/

namespace DwCFlora

/-- A field value as stored in a fetched Firestore document, restricted to
the shapes the script can observe: strings, numbers (kept abstract as
integers — the script never computes with numeric values, it only copies
them), an explicit float NaN, Python `None`, a datetime, and the two
geo-point shapes accepted by `get_lat`/`get_lon`: a dict exposing the
keys `latitude`/`longitude` and an object exposing the same attribute
names.  A geo payload of `none` models a missing key/attribute. -/
inductive Value where
  | str (s : String)
  | int (n : Int)
  | nan
  | null
  | date (y m d : Int)
  | geoDict (lat lon : Option Int)
  | geoObj (lat lon : Option Int)
deriving DecidableEq, Repr

/-- A fetched document (`d.to_dict()` plus the `id` key): an association
list from field name to value.  A key that is absent models a field the
document does not have (a NaN cell once the documents are assembled into
a DataFrame); an explicit `Value.null` entry models a field stored as
Python `None`. -/
def Doc : Type := List (String × Value)

instance : DecidableEq Doc := inferInstanceAs (DecidableEq (List (String × Value)))

instance : Repr Doc := inferInstanceAs (Repr (List (String × Value)))

/-- Dictionary lookup on a document (`data.get(field)` / row access). -/
def getField (d : Doc) (field : String) : Option Value :=
  (d.find? (fun p => p.1 == field)).map Prod.snd

/-- `pd.notna` on a DataFrame cell: `none` (missing key → NaN cell),
a stored Python `None` and a stored float NaN are all "na". -/
def pd_notna : Option Value → Bool
  | none => false
  | some .null => false
  | some .nan => false
  | some _ => true

/-- The guarded copy `x if pd.notna(x) else None` applied to a cell. -/
def filtNa : Option Value → Option Value
  | none => none
  | some .null => none
  | some .nan => none
  | some v => some v

/-- `get_lat` from `src/main.py`: `None` and float NaN yield `None`; a
dict yields `p.get("latitude")`; anything else yields
`getattr(p, "latitude", None)`, which is the attribute for the
object-shaped point and `None` for every other value. -/
def get_lat : Value → Option Value
  | .null => none
  | .nan => none
  | .geoDict lat _ => lat.map Value.int
  | .geoObj lat _ => lat.map Value.int
  | _ => none

/-- `get_lon` from `src/main.py`, the longitude twin of `get_lat`. -/
def get_lon : Value → Option Value
  | .null => none
  | .nan => none
  | .geoDict _ lon => lon.map Value.int
  | .geoObj _ lon => lon.map Value.int
  | _ => none

/-- Python `str` on a stored value, as used by `Series.astype(str)`.
String rendering of the structured shapes is kept abstract but fixed;
only its values on `null` (`"None"`), `nan` (`"nan"`), strings and
numbers matter to the claims. -/
def pyStrVal : Value → String
  | .str s => s
  | .int n => toString n
  | .nan => "nan"
  | .null => "None"
  | .date y m d => toString y ++ "-" ++ toString m ++ "-" ++ toString d
  | .geoDict _ _ => "dict"
  | .geoObj _ _ => "GeoPoint"

/-- `astype(str)` on the `estacionID` column of the station table.  The
station pass normalises every cell to either a non-na value or Python
`None`, and `str(None) = "None"`. -/
def strStationId : Option Value → String
  | none => "None"
  | some v => pyStrVal v

/-- `astype(str)` on the `estacionID` column of the raw record frame.  A
missing key is a NaN cell, and `str(nan) = "nan"`; a stored `None` gives
`"None"`. -/
def strRecordId : Option Value → String
  | none => "nan"
  | some v => pyStrVal v

/-! ### `_safe_filename` -/

/-- A regex word character (`\w`), ASCII approximation. -/
def isWordChar (c : Char) : Bool := c.isAlphanum || c == '_'

/-- A character the pattern `[^\w\-]+` does NOT match, i.e. one that
`re.sub` keeps unchanged. -/
def keepChar (c : Char) : Bool := isWordChar c || c == '-'

theorem length_dropWhile_le (p : Char → Bool) (l : List Char) :
    (l.dropWhile p).length ≤ l.length := by
  induction l with
  | nil => simp [List.dropWhile]
  | cons c rest ih =>
    by_cases h : p c
    · simpa [List.dropWhile, h] using Nat.le_succ_of_le ih
    · simp [List.dropWhile, h]

/-- `re.sub(r"[^\w\-]+", "-", s)` on the character list of `s`: each
maximal run of non-kept characters is replaced by a single hyphen. -/
def collapseRuns : List Char → List Char
  | [] => []
  | c :: rest =>
    if keepChar c then c :: collapseRuns rest
    else '-' :: collapseRuns (rest.dropWhile (fun d => !keepChar d))
termination_by l => l.length
decreasing_by
  all_goals have := length_dropWhile_le (fun d => !keepChar d) rest
  all_goals simp
  all_goals omega

/-- Python `str.strip("-")`: drop leading and trailing hyphens. -/
def stripHyphens (l : List Char) : List Char :=
  ((l.dropWhile (fun c => c == '-')).reverse.dropWhile (fun c => c == '-')).reverse

/-- `_safe_filename` from `src/main.py`:
`re.sub(r"[^\w\-]+", "-", str(s)).strip("-") or "file"` (an empty string
is falsy, so it falls back to `"file"`). -/
def _safe_filename (s : String) : String :=
  let stripped := stripHyphens (collapseRuns s.data)
  if stripped.isEmpty then "file" else String.mk stripped

/-- The generated output filename
`f"Flora_{_safe_filename(campana_id)}_{uuid.uuid4().hex[:6]}.xlsx"`,
with the sampled 6-hex-digit random suffix passed in as `hex`. -/
def out_name (campana_id hex : String) : String :=
  "Flora_" ++ _safe_filename campana_id ++ "_" ++ hex ++ ".xlsx"

/-! ### Station pass (sheet `EstacionReplica`) -/

/-- One row of `df_estacion_plantilla`, with one field per key of
`ESTACION_MAP`.  Cells are `Option Value`; `none` is the cell the loop
fills with Python `None`. -/
structure EstacionRow where
  idCampana : Nat
  nombreEstacion : Option Value
  tipoMonitoreo : Option Value
  numeroReplica : Option Nat
  descripcion : Option Value
  superficie : Option Value
  latitud : Option Value
  longitud : Option Value
  region : Option Value
  provincia : Option Value
  comuna : Option Value
  localidad : Option Value
  ecosistema1 : Option Value
  ecosistema2 : Option Value
  estacionID : Option Value
deriving DecidableEq, Repr

/-- The per-cell rule of the station loop for an ordinary mapped field:
`src[col] if (col is not None and col in src and pd.notna(src[col]))
else None`.  Per row this is exactly `filtNa` of the document's field:
when the column is absent from the whole frame the guard fails, and then
the field is absent from every document as well. -/
def estCell (d : Doc) (field : String) : Option Value :=
  filtNa (getField d field)

/-- One station row as built by the loop body (before the replicate
fill), with `id_row = i + 1` driving the "ID Campaña" column.  The
"Número Réplica" placeholder (`0` in the code, replaced afterwards) is
left out; `estacionPass` computes the final value. -/
def mkEstacionRow (i : Nat) (d : Doc) : EstacionRow where
  idCampana := i + 1
  nombreEstacion := estCell d "name"
  tipoMonitoreo := estCell d "tipoMonitoreo"
  numeroReplica := none
  descripcion := estCell d "comentario"
  superficie := estCell d "tamano"
  latitud := (filtNa (getField d "coordinatesPlani")).bind get_lat
  longitud := (filtNa (getField d "coordinatesPlani")).bind get_lon
  region := estCell d "region"
  provincia := estCell d "provincia"
  comuna := estCell d "comuna"
  localidad := estCell d "localidad"
  ecosistema1 := estCell d "cobertura1"
  ecosistema2 := estCell d "cobertura2"
  estacionID := estCell d "estacionID"

/-- The rows built by the station loop, in fetch order. -/
def estacionRowsAux (i : Nat) : List Doc → List EstacionRow
  | [] => []
  | d :: rest => mkEstacionRow i d :: estacionRowsAux (i + 1) rest

/-- One step of `groupby("Nombre estación").cumcount().add(1)`: with the
default `dropna=True` a row whose group key is the `None` cell gets a
NaN result, and any other row gets one plus the number of earlier rows
carrying the same name. -/
def replicaFor (prev : List (Option Value)) : Option Value → Option Nat
  | none => none
  | some v => some ((prev.countP (fun n => n == some v)) + 1)

/-- The replicate fill over the built rows, keeping the visited names in
`prev` (rows are not reordered: `cumcount` aligns to the original
index). -/
def fillReplicas (prev : List (Option Value)) : List EstacionRow → List EstacionRow
  | [] => []
  | r :: rest =>
    { r with numeroReplica := replicaFor prev r.nombreEstacion }
      :: fillReplicas (prev ++ [r.nombreEstacion]) rest

/-- The full station pass: the row-building loop followed by the
`cumcount` replicate fill (a no-op on an empty frame, as in the code). -/
def estacionPass (docs : List Doc) : List EstacionRow :=
  fillReplicas [] (estacionRowsAux 0 docs)

/-! ### Left join of records with the station replicate numbers -/

/-- A record row after the merge: the fetched document plus the
`"Número Réplica"` column brought in by the left join (`none` models the
NaN of an unmatched row, or the column assigned `None` when no record
document has an `estacionID` key). -/
structure JoinedReg where
  doc : Doc
  replica : Option Nat
deriving DecidableEq, Repr

/-- The join key of a record document: its `estacionID` column after
`astype(str)`. -/
def regKey (d : Doc) : String := strRecordId (getField d "estacionID")

/-- `df_registro.merge(df_estacion_plantilla[["estacionID", "Número
Réplica"]], on="estacionID", how="left")`, guarded by `"estacionID" in
df_registro.columns` (the column exists exactly when some record
document carries the key; the station frame always has the column since
it is constructed with a fixed column list).  A left merge preserves the
order of the left rows and emits one row per matching right row, in
right order; an unmatched left row survives once with a NaN
augmentation. -/
def joinReplica (est : List EstacionRow) (regs : List Doc) : List JoinedReg :=
  if regs.any (fun d => (getField d "estacionID").isSome) then
    regs.flatMap (fun d =>
      let ms := est.filter (fun e => strStationId e.estacionID == regKey d)
      if ms.isEmpty then [⟨d, none⟩]
      else ms.map (fun e => ⟨d, e.numeroReplica⟩))
  else
    regs.map (fun d => ⟨d, none⟩)

/-! ### Record pass (sheet `Ocurrencia`) -/

/-- `REGISTRO_MAP` from `src/main.py`: destination field name to source
column (`none` models a Python `None` source). -/
def REGISTRO_MAP : List (String × Option String) :=
  [("ID Campaña", none),
   ("AUTOCOMPLETADO NombreCampaña", some "valor"),
   ("ID EstacionReplica", some "Número Réplica"),
   ("AUTOCOMPLETADO NombreEstacion-Número Replica-Tipo de monitoreo", none),
   ("Año del evento", some "registroAnoDate"),
   ("Mes del evento", some "registrosMesDate"),
   ("Día del evento", some "registrosDiaDate"),
   ("Hora inicio evento (hh:mm)", some "registrosHoraDate"),
   ("Protocolo de muestreo", some "protocoloMuestreo"),
   ("Tamaño de la muestra", some "tamanoEst"),
   ("Unidad del tamaño de la muestra", some "unidadDeLaMuestra"),
   ("Esfuerzo de muestreo", none),
   ("Profundidad (m)", none),
   ("Comentarios del evento", some "comentarios"),
   ("Reino", some "Reino"),
   ("Filo o división", none),
   ("Clase", some "clase"),
   ("Orden", none),
   ("Familia", some "familia"),
   ("Género", some "genero"),
   ("Subgénero", none),
   ("Epíteto específico", none),
   ("Epíteto infraespecífico", none),
   ("Nombre común", none),
   ("Comentarios del taxón", none),
   ("Estado del organismo", some "estadoDelOrganismo"),
   ("Tipo de componente abiótico", some "tipoDeComponente"),
   ("Parámetro", some "parametro"),
   ("Tipo de cuantificación", some "tipoCuantificacion"),
   ("Valor", some "nInd"),
   ("Unidad de valor", some "unidadDeValor"),
   ("Latitud decimal registro", some "coordinatesReg"),
   ("Longitud decimal registro", some "coordinatesReg"),
   ("Hora registro", some "registrosHoraDate"),
   ("Condición reproductiva", none),
   ("Sexo (Fauna)", none),
   ("Etapa de vida (Fauna)", none),
   ("Comportamiento (Fauna)", none),
   ("Hábito de crecimiento (Flora)", some "habito"),
   ("Propiedades dinámicas", some "valor"),
   ("Tipo de registro", some "tipoDeRegistro"),
   ("Código individuo", none),
   ("Comentarios del registro biológico", none),
   ("Muestreado por", none),
   ("Identificado por", none),
   ("Comentarios de la Identificación", none),
   ("Observaciones adicionales", none)]

/-- `REGISTRO_MAP.get(col_name)` flattened: `none` both for a missing
key and for a key mapped to `None` (the loop only looks up declared
keys, where the two coincide with the `col is None` test). -/
def registroMapGet (colName : String) : Option String :=
  match (REGISTRO_MAP.find? (fun p => p.1 == colName)).map Prod.snd with
  | some src => src
  | none => none

/-- The allow-list of destination fields filled with a single space when
their declared source is `None` (the set literal at lines 354–360). -/
def espacioFields : List String :=
  ["Esfuerzo de muestreo", "Profundidad (m)", "Filo o división", "Orden", "Subgénero",
   "Epíteto específico", "Epíteto infraespecífico", "Nombre común", "Comentarios del taxón",
   "Condición reproductiva", "Sexo (Fauna)", "Etapa de vida (Fauna)", "Comportamiento (Fauna)",
   "Código individuo", "Comentarios del registro biológico", "Muestreado por",
   "Identificado por", "Comentarios de la Identificación", "Observaciones adicionales"]

/-- Column access on a merged record row: the `"Número Réplica"` column
is the one added by the join, every other name reads the fetched
document. -/
def joinedCell (j : JoinedReg) (field : String) : Option Value :=
  if field == "Número Réplica" then j.replica.map (fun n => Value.int (Int.ofNat n))
  else getField j.doc field

/-- The cell rule of the record loop (lines 341–364), with the branches
in source order: the constant `"ID Campaña" = 1`; the two geo-extracted
destinations reading `coordinatesReg`; the constant
`"AMS Consultores"` override for `"Identificado por"` and
`"Comentarios de la Identificación"`; the unsourced fields, space-filled
on the allow-list and `None` otherwise; and the guarded verbatim copy of
the mapped source column. -/
def registroCell (j : JoinedReg) (colName : String) : Option Value :=
  if colName == "ID Campaña" then some (.int 1)
  else if colName == "Latitud decimal registro" then
    (filtNa (joinedCell j "coordinatesReg")).bind get_lat
  else if colName == "Longitud decimal registro" then
    (filtNa (joinedCell j "coordinatesReg")).bind get_lon
  else if colName == "Identificado por" || colName == "Comentarios de la Identificación" then
    some (.str "AMS Consultores")
  else
    match registroMapGet colName with
    | none => if espacioFields.contains colName then some (.str " ") else none
    | some src => filtNa (joinedCell j src)

/-- The record pass: one output row per merged row, in merge order (the
loop runs over `range(len(df_registro))` after the join). -/
def registroPass (est : List EstacionRow) (regs : List Doc) : List JoinedReg :=
  joinReplica est regs

/-! ### The `numero_registro` position dictionary -/

/-- The `numero_registro` dict literal written in the source, as the raw
sequence of `position: field` entries — including the duplicated key
`43`, kept on purpose in the code
(`43: "Comentarios del registro biológico"` then
`43: "Muestreado por"`), and no key `44`. -/
def numero_registro_entries : List (Nat × String) :=
  [(1, "ID Campaña"),
   (2, "AUTOCOMPLETADO NombreCampaña"),
   (3, "ID EstacionReplica"),
   (4, "AUTOCOMPLETADO NombreEstacion-Número Replica-Tipo de monitoreo"),
   (5, "Año del evento"),
   (6, "Mes del evento"),
   (7, "Día del evento"),
   (8, "Hora inicio evento (hh:mm)"),
   (9, "Protocolo de muestreo"),
   (10, "Tamaño de la muestra"),
   (11, "Unidad del tamaño de la muestra"),
   (12, "Esfuerzo de muestreo"),
   (13, "Profundidad (m)"),
   (14, "Comentarios del evento"),
   (15, "Reino"),
   (16, "Filo o división"),
   (17, "Clase"),
   (18, "Orden"),
   (19, "Familia"),
   (20, "Género"),
   (21, "Subgénero"),
   (22, "Epíteto específico"),
   (23, "Epíteto infraespecífico"),
   (24, "Nombre común"),
   (25, "Comentarios del taxón"),
   (26, "Estado del organismo"),
   (27, "Tipo de componente abiótico"),
   (28, "Parámetro"),
   (29, "Tipo de cuantificación"),
   (30, "Valor"),
   (31, "Unidad de valor"),
   (32, "Latitud decimal registro"),
   (33, "Longitud decimal registro"),
   (34, "Hora registro"),
   (35, "Condición reproductiva"),
   (36, "Sexo (Fauna)"),
   (37, "Etapa de vida (Fauna)"),
   (38, "Comportamiento (Fauna)"),
   (39, "Hábito de crecimiento (Flora)"),
   (40, "Propiedades dinámicas"),
   (41, "Tipo de registro"),
   (42, "Código individuo"),
   (43, "Comentarios del registro biológico"),
   (43, "Muestreado por"),
   (45, "Identificado por"),
   (46, "Comentarios de la Identificación"),
   (47, "Observaciones adicionales")]

/-- Evaluation of a Python dict literal: entries are inserted left to
right; a repeated key keeps its first position but takes the value of
its last occurrence. -/
def pyDict (entries : List (Nat × String)) : List (Nat × String) :=
  entries.foldl (fun acc kv =>
    if acc.any (fun p => p.1 == kv.1) then
      acc.map (fun p => if p.1 == kv.1 then (p.1, kv.2) else p)
    else acc ++ [kv]) []

/-- The `numero_registro` dict the program actually holds at run time. -/
def numero_registro : List (Nat × String) := pyDict numero_registro_entries

/-- Ascending insertion into a sorted list of keys. -/
def insertAsc (k : Nat) : List Nat → List Nat
  | [] => [k]
  | x :: xs => if k ≤ x then k :: x :: xs else x :: insertAsc k xs

/-- Python `sorted` on the dict's keys (insertion sort; both compute the
unique ascending ordering of the distinct keys). -/
def sortAsc (l : List Nat) : List Nat := l.foldr insertAsc []

/-- The `(column number, field name)` pairs the Occurrence writer
iterates: `for col_number in sorted(numero_registro.keys())` with
`col_name = numero_registro[col_number]`. -/
def sortedRegCols : List (Nat × String) :=
  (sortAsc (numero_registro.map Prod.fst)).filterMap
    (fun k => ((numero_registro.find? (fun p => p.1 == k)).map Prod.snd).map (fun n => (k, n)))

/-! ### Campaign pass (sheet `Campaña`) -/

/-- `camp.get(...)` followed by the DataFrame round trip: a stored
Python `None` stays a `None` cell.  (String-to-datetime parsing by
`pd.to_datetime` is abstracted: date-typed fields carry `Value.date`.) -/
def campField (d : Doc) (f : String) : Option Value :=
  match getField d f with
  | some .null => none
  | x => x

/-- `pd.to_datetime(v, errors="coerce")` composed with `_ymd`: a
datetime value decomposes into its integer year/month/day; an absent or
non-datetime (hence coerced-to-NaT) value yields the absent triple. -/
def ymd : Option Value → Option Int × Option Int × Option Int
  | some (.date y m d) => (some y, some m, some d)
  | _ => (none, none, none)

/-- One row of `df_campana_plantilla` (the campaign pass always emits
exactly one, from the first fetched campaign document). -/
structure CampanaRow where
  idCampana : Int
  nombre : Option Value
  numero : Option Value
  anioIni : Option Int
  mesIni : Option Int
  diaIni : Option Int
  anioFin : Option Int
  mesFin : Option Int
  diaFin : Option Int
  objetivo : Option Value
  comentarios : Option Value
deriving DecidableEq, Repr

/-- The campaign pass on the first fetched document. -/
def campanaRow (camp : Doc) : CampanaRow :=
  let ini := ymd (campField camp "startDateCamp")
  let fin := ymd (campField camp "endDateCamp")
  { idCampana := 1
    nombre := campField camp "name"
    numero := campField camp "ncampana"
    anioIni := ini.1, mesIni := ini.2.1, diaIni := ini.2.2
    anioFin := fin.1, mesFin := fin.2.1, diaFin := fin.2.2
    objetivo := none
    comentarios := none }

/-! ### Worksheet model and the Spreadsheet Writer -/

/-- The value written into a worksheet cell: `none` is the explicit
empty cell the code writes for an absent value. -/
abbrev CellVal := Option Value

/-- A worksheet row: column number to cell content, `none` where no cell
was ever written (a template cell outside the model's writes). -/
abbrev Row := Nat → Option CellVal

/-- A worksheet: its rows, top to bottom (row `r` of openpyxl is entry
`r - 1`). -/
abbrev Sheet := List Row

/-- A row with no written cells. -/
def emptyRow : Row := fun _ => none

/-- Content of 0-indexed row `k`, column `c`. -/
def cellAtRows (rows : Sheet) (k c : Nat) : Option CellVal :=
  match rows.get? k with
  | some row => row c
  | none => none

/-- Content of the sheet at openpyxl coordinates (`r ≥ 1`, `c ≥ 1`). -/
def cellAt (s : Sheet) (r c : Nat) : Option CellVal :=
  cellAtRows s (r - 1) c

/-- `ws.cell(row, column, value)` on 0-indexed row `k`, padding the
sheet with empty rows when the row does not exist yet. -/
def setCellRows : Sheet → Nat → Nat → CellVal → Sheet
  | [], 0, c, v => [fun c' => if c' = c then some v else none]
  | [], Nat.succ k, c, v => emptyRow :: setCellRows [] k c v
  | row :: rest, 0, c, v => (fun c' => if c' = c then some v else row c') :: rest
  | row :: rest, Nat.succ k, c, v => row :: setCellRows rest k c v

/-- `ws.cell(row=r, column=c, value=v)`. -/
def setCell (s : Sheet) (r c : Nat) (v : CellVal) : Sheet :=
  setCellRows s (r - 1) c v

/-- Write one output row: the inner `for col_name, col_number in …`
loop, as the list of `(column number, value)` writes in iteration
order. -/
def writeRowCells (s : Sheet) (r : Nat) (cells : List (Nat × CellVal)) : Sheet :=
  cells.foldl (fun acc p => setCell acc r p.1 p.2) s

/-- Write a table: row `i` of `rows` lands on sheet row `r0 + i`. -/
def writeTable (s : Sheet) (r0 : Nat) : List (List (Nat × CellVal)) → Sheet
  | [] => s
  | cells :: rest => writeTable (writeRowCells s r0 cells) (r0 + 1) rest

/-- `numeros_campana` from `src/main.py` (field name to column number,
in insertion order). -/
def numeros_campana : List (String × Nat) :=
  [("ID Campaña", 1), ("Nombre campaña", 2), ("Número de campaña", 3),
   ("Año inicio", 4), ("Mes inicio", 5), ("Día inicio", 6),
   ("Año término", 7), ("Mes término", 8), ("Día término", 9),
   ("Objetivo de la campaña", 10), ("Comentarios adicionales", 11)]

/-- `numeros_estacion` from `src/main.py` (note: `estacionID` is a
column of the mapped table but has no destination column). -/
def numeros_estacion : List (String × Nat) :=
  [("ID Campaña", 1), ("Nombre estación", 2), ("Tipo de monitoreo", 3),
   ("Número Réplica", 4), ("Descripción EstacionReplica", 5),
   ("Superficie (m2)", 9), ("Latitud decimal central", 10),
   ("Longitud decimal central", 11), ("Región", 16), ("Provincia", 17),
   ("Comuna", 18), ("Localidad", 19), ("Ecosistema nivel 1", 20),
   ("Ecosistema nivel 2", 21)]

/-- Cell of a campaign-pass row under a `numeros_campana` field name. -/
def campCell (row : CampanaRow) (name : String) : CellVal :=
  if name == "ID Campaña" then some (.int row.idCampana)
  else if name == "Nombre campaña" then row.nombre
  else if name == "Número de campaña" then row.numero
  else if name == "Año inicio" then row.anioIni.map Value.int
  else if name == "Mes inicio" then row.mesIni.map Value.int
  else if name == "Día inicio" then row.diaIni.map Value.int
  else if name == "Año término" then row.anioFin.map Value.int
  else if name == "Mes término" then row.mesFin.map Value.int
  else if name == "Día término" then row.diaFin.map Value.int
  else if name == "Objetivo de la campaña" then row.objetivo
  else row.comentarios

/-- Cell of a station-pass row under a `numeros_estacion` field name. -/
def estOutCell (row : EstacionRow) (name : String) : CellVal :=
  if name == "ID Campaña" then some (.int (Int.ofNat row.idCampana))
  else if name == "Nombre estación" then row.nombreEstacion
  else if name == "Tipo de monitoreo" then row.tipoMonitoreo
  else if name == "Número Réplica" then row.numeroReplica.map (fun n => Value.int (Int.ofNat n))
  else if name == "Descripción EstacionReplica" then row.descripcion
  else if name == "Superficie (m2)" then row.superficie
  else if name == "Latitud decimal central" then row.latitud
  else if name == "Longitud decimal central" then row.longitud
  else if name == "Región" then row.region
  else if name == "Provincia" then row.provincia
  else if name == "Comuna" then row.comuna
  else if name == "Localidad" then row.localidad
  else if name == "Ecosistema nivel 1" then row.ecosistema1
  else row.ecosistema2

/-- The template workbook restricted to the three sheets the writer
touches. -/
structure Workbook where
  camp : Sheet
  est : Sheet
  ocur : Sheet

/-- The `Campaña` write loop: rows from row 3, one per table row, each
field at its declared column.  The code performs NO `delete_rows` on
this sheet — existing cells are only overwritten where a new value
lands. -/
def escribirCampana (sheet : Sheet) (tbl : List CampanaRow) : Sheet :=
  writeTable sheet 3
    (tbl.map (fun row => numeros_campana.map (fun p => (p.2, campCell row p.1))))

/-- The `EstacionReplica` write loop: `delete_rows(2, max_row - 1)` when
there is anything below row 1 (i.e. keep only the header row — a no-op
when at most one row exists, exactly like the guarded call), then rows
from row 2. -/
def escribirEstacion (sheet : Sheet) (tbl : List EstacionRow) : Sheet :=
  writeTable (sheet.take 1) 2
    (tbl.map (fun row => numeros_estacion.map (fun p => (p.2, estOutCell row p.1))))

/-- The `Ocurrencia` write loop: `delete_rows(3, max_row - 2)` when
anything exists below the two header rows (keep rows 1–2), then rows
from row 3, iterating the dict's declared column numbers in ascending
order. -/
def escribirOcurrencia (sheet : Sheet) (tbl : List JoinedReg) : Sheet :=
  writeTable (sheet.take 2) 3
    (tbl.map (fun j => sortedRegCols.map (fun p => (p.1, registroCell j p.2))))

/-- The Spreadsheet Writer over the three sheets (lines 370–397). -/
def escribirExcel (tpl : Workbook) (ct : List CampanaRow) (et : List EstacionRow)
    (jt : List JoinedReg) : Workbook :=
  { camp := escribirCampana tpl.camp ct
    est := escribirEstacion tpl.est et
    ocur := escribirOcurrencia tpl.ocur jt }

/-! ### `generar_excel_fauna_like` and the export endpoint -/

/-- The template file's base name, used in the missing-template
detail. -/
def templateName : String := "FormatoBiodiversidadMonitoreoYLineaBase_v5.2.xlsx"

/-- A raised Python exception as observable at the export boundary:
either a `fastapi.HTTPException` with its status and detail, or any
other exception carrying its message. -/
inductive PyErr where
  | httpException (status : Nat) (detail : String)
  | otherError (msg : String)
deriving DecidableEq, Repr

/-- `generar_excel_fauna_like`: the fetched collections are passed in
(`campDocs`, `estDocs`, `regDocs` are the documents matching the
campaign id, in fetch order), together with the template's existence and
contents and the sampled random filename suffix.  Returns the saved
workbook and its filename, or the raised `HTTPException`. -/
def generar_excel_fauna_like (templateExists : Bool) (tpl : Workbook)
    (campana_id hex : String) (campDocs estDocs regDocs : List Doc) :
    Except PyErr (Workbook × String) :=
  match campDocs with
  | [] => .error (.httpException 404 "No hay documentos en 'campana' para ese campanaID.")
  | camp :: _ =>
    let campTbl := [campanaRow camp]
    let est := estacionPass estDocs
    let joined := registroPass est regDocs
    if templateExists then
      .ok (escribirExcel tpl campTbl est joined, out_name campana_id hex)
    else
      .error (.httpException 500 ("No se encontró la plantilla: " ++ templateName))

/-- `request.url_for("download_file", fname=...)`: the absolute download
URL the endpoint returns, `base` being the absolute request base URL
supplied by the HTTP layer. -/
def download_url_for (base fname : String) : String :=
  base ++ "/download/" ++ fname

/-- The export endpoint's observable outcome: an HTTP error response or
the success JSON object `{"download_url": url}`. -/
inductive ExportResult where
  | httpError (status : Nat) (detail : String)
  | jsonDownloadUrl (url : String)
deriving DecidableEq, Repr

/-- The `export_excel` endpoint body: `HTTPException`s re-raise
unchanged; any other exception is wrapped as a 500 whose detail embeds
the original message; success returns the JSON with the absolute
download URL for the saved file's name. -/
def export_excel (base : String) (r : Except PyErr String) : ExportResult :=
  match r with
  | .error (.httpException s d) => .httpError s d
  | .error (.otherError m) => .httpError 500 ("Error generando Excel: " ++ m)
  | .ok fname => .jsonDownloadUrl (download_url_for base fname)

/-! ### Lemmas about the worksheet model -/

theorem cellAtRows_nil (k c : Nat) : cellAtRows [] k c = none := by
  cases k <;> rfl

theorem cellAtRows_cons_succ (row : Row) (rest : Sheet) (k c : Nat) :
    cellAtRows (row :: rest) (k + 1) c = cellAtRows rest k c := rfl

theorem cellAtRows_setCellRows_self (rows : Sheet) (k c : Nat) (v : CellVal) :
    cellAtRows (setCellRows rows k c v) k c = some v := by
  induction k generalizing rows with
  | zero => cases rows <;> simp [setCellRows, cellAtRows]
  | succ kk ih =>
    cases rows with
    | nil => simpa [setCellRows, cellAtRows_cons_succ] using ih []
    | cons row rest => simpa [setCellRows, cellAtRows_cons_succ] using ih rest

theorem cellAtRows_setCellRows_ne (rows : Sheet) (k c : Nat) (v : CellVal)
    (k' c' : Nat) (h : k' ≠ k ∨ c' ≠ c) :
    cellAtRows (setCellRows rows k c v) k' c' = cellAtRows rows k' c' := by
  induction k generalizing rows k' with
  | zero =>
    cases rows with
    | nil =>
      cases k' with
      | zero =>
        rcases h with h | h
        · exact absurd rfl h
        · simp [setCellRows, cellAtRows, h]
      | succ kk' => simp [setCellRows, cellAtRows_cons_succ, cellAtRows_nil]
    | cons row rest =>
      cases k' with
      | zero =>
        rcases h with h | h
        · exact absurd rfl h
        · simp [setCellRows, cellAtRows, h]
      | succ kk' => simp [setCellRows, cellAtRows_cons_succ]
  | succ kk ih =>
    have h2 : ∀ kk' : Nat, k' = kk' + 1 → (kk' ≠ kk ∨ c' ≠ c) := by
      intro kk' hk
      rcases h with h | h
      · exact Or.inl (by omega)
      · exact Or.inr h
    cases rows with
    | nil =>
      cases k' with
      | zero => simp [setCellRows, cellAtRows, emptyRow]
      | succ kk' =>
        have step : cellAtRows (setCellRows [] kk c v) kk' c' = cellAtRows [] kk' c' :=
          ih [] kk' (h2 kk' rfl)
        simpa [setCellRows, cellAtRows_cons_succ, cellAtRows_nil] using step
    | cons row rest =>
      cases k' with
      | zero => simp [setCellRows, cellAtRows]
      | succ kk' =>
        have step : cellAtRows (setCellRows rest kk c v) kk' c' = cellAtRows rest kk' c' :=
          ih rest kk' (h2 kk' rfl)
        simpa [setCellRows, cellAtRows_cons_succ] using step

theorem cellAt_setCell_self (s : Sheet) (r c : Nat) (v : CellVal) :
    cellAt (setCell s r c v) r c = some v :=
  cellAtRows_setCellRows_self s (r - 1) c v

theorem cellAt_setCell_ne (s : Sheet) (r c : Nat) (v : CellVal) (r' c' : Nat)
    (h : r' - 1 ≠ r - 1 ∨ c' ≠ c) :
    cellAt (setCell s r c v) r' c' = cellAt s r' c' :=
  cellAtRows_setCellRows_ne s (r - 1) c v (r' - 1) c' h

/-- Last-write-wins lookup of a column among a row's `(column, value)`
writes, mirroring the left-to-right cell writes of the inner loop. -/
def lookupLast : List (Nat × CellVal) → Nat → Option CellVal
  | [], _ => none
  | p :: rest, c =>
    match lookupLast rest c with
    | some v => some v
    | none => if p.1 = c then some p.2 else none

theorem cellAt_writeRowCells_self (cells : List (Nat × CellVal)) (s : Sheet) (r c : Nat) :
    cellAt (writeRowCells s r cells) r c =
      match lookupLast cells c with
      | some v => some v
      | none => cellAt s r c := by
  induction cells generalizing s with
  | nil => rfl
  | cons p rest ih =>
    have step : writeRowCells s r (p :: rest) = writeRowCells (setCell s r p.1 p.2) r rest := rfl
    rw [step, ih]
    cases hl : lookupLast rest c with
    | some v => simp [lookupLast, hl]
    | none =>
      by_cases hc : p.1 = c
      · subst hc
        simp [lookupLast, hl, cellAt_setCell_self]
      · simp only [lookupLast, hl]
        rw [if_neg hc]
        exact cellAt_setCell_ne s r p.1 p.2 r c (Or.inr (fun hcc => hc hcc.symm))

theorem cellAt_writeRowCells_ne_row (cells : List (Nat × CellVal)) (s : Sheet) (r : Nat)
    (r' c' : Nat) (h : r' - 1 ≠ r - 1) :
    cellAt (writeRowCells s r cells) r' c' = cellAt s r' c' := by
  induction cells generalizing s with
  | nil => rfl
  | cons p rest ih =>
    have step : writeRowCells s r (p :: rest) = writeRowCells (setCell s r p.1 p.2) r rest := rfl
    rw [step, ih]
    exact cellAt_setCell_ne s r p.1 p.2 r' c' (Or.inl h)

theorem cellAt_writeRowCells_ne_col (cells : List (Nat × CellVal)) (s : Sheet) (r : Nat)
    (r' c' : Nat) (h : ∀ p ∈ cells, p.1 ≠ c') :
    cellAt (writeRowCells s r cells) r' c' = cellAt s r' c' := by
  induction cells generalizing s with
  | nil => rfl
  | cons p rest ih =>
    have step : writeRowCells s r (p :: rest) = writeRowCells (setCell s r p.1 p.2) r rest := rfl
    rw [step, ih (setCell s r p.1 p.2) (fun q hq => h q (List.mem_cons_of_mem p hq))]
    exact cellAt_setCell_ne s r p.1 p.2 r' c'
      (Or.inr (fun hcc => h p (List.mem_cons_self p rest) hcc.symm))

theorem cellAt_writeTable_lt (rows : List (List (Nat × CellVal))) (s : Sheet) (r0 : Nat)
    (r c : Nat) (h1 : 1 ≤ r) (h2 : r < r0) :
    cellAt (writeTable s r0 rows) r c = cellAt s r c := by
  induction rows generalizing s r0 with
  | nil => rfl
  | cons cells rest ih =>
    have step : writeTable s r0 (cells :: rest) = writeTable (writeRowCells s r0 cells) (r0 + 1) rest := rfl
    rw [step, ih (writeRowCells s r0 cells) (r0 + 1) (by omega)]
    exact cellAt_writeRowCells_ne_row cells s r0 r c (by omega)

theorem cellAt_writeTable_ge (rows : List (List (Nat × CellVal))) (s : Sheet) (r0 : Nat)
    (r c : Nat) (h1 : 1 ≤ r0) (h2 : r0 + rows.length ≤ r) :
    cellAt (writeTable s r0 rows) r c = cellAt s r c := by
  induction rows generalizing s r0 with
  | nil => rfl
  | cons cells rest ih =>
    have step : writeTable s r0 (cells :: rest) = writeTable (writeRowCells s r0 cells) (r0 + 1) rest := rfl
    have hlen : (cells :: rest).length = rest.length + 1 := rfl
    rw [step, ih (writeRowCells s r0 cells) (r0 + 1) (by omega) (by rw [hlen] at h2; omega)]
    exact cellAt_writeRowCells_ne_row cells s r0 r c (by rw [hlen] at h2; omega)

theorem cellAt_writeTable_ne_col (rows : List (List (Nat × CellVal))) (s : Sheet) (r0 : Nat)
    (r c : Nat) (h : ∀ cells ∈ rows, ∀ p ∈ cells, p.1 ≠ c) :
    cellAt (writeTable s r0 rows) r c = cellAt s r c := by
  induction rows generalizing s r0 with
  | nil => rfl
  | cons cells rest ih =>
    have step : writeTable s r0 (cells :: rest) = writeTable (writeRowCells s r0 cells) (r0 + 1) rest := rfl
    rw [step, ih (writeRowCells s r0 cells) (r0 + 1)
      (fun cs hcs p hp => h cs (List.mem_cons_of_mem cells hcs) p hp)]
    exact cellAt_writeRowCells_ne_col cells s r0 r c
      (fun p hp => h cells (List.mem_cons_self cells rest) p hp)

theorem cellAt_writeTable_at (rows : List (List (Nat × CellVal))) (s : Sheet) (r0 : Nat)
    (i c : Nat) (cellsI : List (Nat × CellVal)) (hi : rows.get? i = some cellsI) (h1 : 1 ≤ r0) :
    cellAt (writeTable s r0 rows) (r0 + i) c =
      match lookupLast cellsI c with
      | some v => some v
      | none => cellAt s (r0 + i) c := by
  induction rows generalizing s r0 i with
  | nil => exact absurd hi (by simp)
  | cons cells rest ih =>
    have step : writeTable s r0 (cells :: rest) = writeTable (writeRowCells s r0 cells) (r0 + 1) rest := rfl
    cases i with
    | zero =>
      have hc : cells = cellsI := by simpa using hi
      subst hc
      rw [step, cellAt_writeTable_lt rest (writeRowCells s r0 cells) (r0 + 1) (r0 + 0) c
        (by omega) (by omega)]
      simpa using cellAt_writeRowCells_self cells s r0 c
    | succ ii =>
      have hii : rest.get? ii = some cellsI := by simpa using hi
      have harith : r0 + (ii + 1) = (r0 + 1) + ii := by omega
      rw [step, harith, ih (writeRowCells s r0 cells) (r0 + 1) ii hii (by omega)]
      have hframe : cellAt (writeRowCells s r0 cells) ((r0 + 1) + ii) c = cellAt s ((r0 + 1) + ii) c :=
        cellAt_writeRowCells_ne_row cells s r0 ((r0 + 1) + ii) c (by omega)
      cases hl : lookupLast cellsI c with
      | some v => simp [hl]
      | none => simp [hl, hframe]

theorem cellAt_take_none (s : Sheet) (k r c : Nat) (h : k + 1 ≤ r) :
    cellAt (s.take k) r c = none := by
  unfold cellAt cellAtRows
  have hlen : (s.take k).length ≤ r - 1 := by
    have := List.length_take_le k s
    omega
  rw [List.get?_eq_none.mpr hlen]

/-! ### Replicate numbering (claim C1) -/

/-- The station display names, in fetch order, as they sit in the
`"Nombre estación"` column. -/
def stationNames (docs : List Doc) : List (Option Value) :=
  docs.map (fun d => estCell d "name")

/-- Helper spec: the replicate numbers produced when the names in
`prev` have already been seen. -/
def specAux (prev : List (Option Value)) : List (Option Value) → List (Option Nat)
  | [] => []
  | n :: rest => replicaFor prev n :: specAux (prev ++ [n]) rest

theorem estacionRowsAux_names (docs : List Doc) : ∀ i,
    (estacionRowsAux i docs).map (fun r => r.nombreEstacion) = stationNames docs := by
  induction docs with
  | nil => intro i; rfl
  | cons d rest ih =>
    intro i
    simpa [estacionRowsAux, stationNames, mkEstacionRow] using ih (i + 1)

theorem fillReplicas_names (rows : List EstacionRow) : ∀ prev,
    (fillReplicas prev rows).map (fun r => r.nombreEstacion)
      = rows.map (fun r => r.nombreEstacion) := by
  induction rows with
  | nil => intro prev; rfl
  | cons r rest ih =>
    intro prev
    simpa [fillReplicas] using ih (prev ++ [r.nombreEstacion])

theorem fillReplicas_replicas (rows : List EstacionRow) : ∀ prev,
    (fillReplicas prev rows).map (fun r => r.numeroReplica)
      = specAux prev (rows.map (fun r => r.nombreEstacion)) := by
  induction rows with
  | nil => intro prev; rfl
  | cons r rest ih =>
    intro prev
    simpa [fillReplicas, specAux] using ih (prev ++ [r.nombreEstacion])

theorem specAux_eq (names : List (Option Value)) : ∀ prev,
    specAux prev names =
      (List.range names.length).map (fun i =>
        match names.get? i with
        | some (some v) =>
            some (((prev ++ names.take i).countP (fun n => n == some v)) + 1)
        | _ => none) := by
  induction names with
  | nil => intro prev; simp [specAux]
  | cons n rest ih =>
    intro prev
    rw [specAux, List.length_cons, List.range_succ_eq_map, List.map_cons, List.map_map]
    have hhead :
        (match (n :: rest).get? 0 with
         | some (some v) =>
             some (((prev ++ (n :: rest).take 0).countP (fun m => m == some v)) + 1)
         | _ => none) = replicaFor prev n := by
      cases n with
      | none => rfl
      | some v => simp [replicaFor]
    have htail : ∀ i ∈ List.range rest.length,
        (match (n :: rest).get? (i + 1) with
         | some (some v) =>
             some (((prev ++ (n :: rest).take (i + 1)).countP (fun m => m == some v)) + 1)
         | _ => none)
        = (match rest.get? i with
           | some (some v) =>
               some ((((prev ++ [n]) ++ rest.take i).countP (fun m => m == some v)) + 1)
           | _ => none) := by
      intro i _
      have happ : prev ++ (n :: rest).take (i + 1) = (prev ++ [n]) ++ rest.take i := by
        simp [List.take_succ_cons, List.append_assoc]
      rw [List.get?_cons_succ, happ]
    calc replicaFor prev n :: specAux (prev ++ [n]) rest
        = replicaFor prev n :: (List.range rest.length).map (fun i =>
            match rest.get? i with
            | some (some v) =>
                some ((((prev ++ [n]) ++ rest.take i).countP (fun m => m == some v)) + 1)
            | _ => none) := by rw [ih (prev ++ [n])]
      _ = _ := by
          rw [← hhead]
          refine congrArg _ ?_
          exact (List.map_congr_left htail).symm

/-- The code-side replicate column equals the claim-side formula, except
that a row with an absent display name gets an absent number.  Stated
over the input documents: the names column is the fetch-order list of
the documents' (na-filtered) `name` fields, and the replicate of row `i`
is one plus the number of earlier rows carrying the same present
name. -/
theorem estacionPass_spec (docs : List Doc) :
    (estacionPass docs).map (fun r => r.nombreEstacion) = stationNames docs
    ∧ (estacionPass docs).map (fun r => r.numeroReplica) =
        (List.range docs.length).map (fun i =>
          match (stationNames docs).get? i with
          | some (some v) =>
              some ((((stationNames docs).take i).countP (fun n => n == some v)) + 1)
          | _ => none) := by
  constructor
  · rw [estacionPass, fillReplicas_names, estacionRowsAux_names]
  · rw [estacionPass, fillReplicas_replicas, estacionRowsAux_names, specAux_eq]
    have hlen : (stationNames docs).length = docs.length := by
      simp [stationNames]
    rw [hlen]
    simp

/-! ### Lemmas about the join and the record pass -/

theorem registroCell_idEstacionReplica (d : Doc) (rep : Option Nat) :
    registroCell ⟨d, rep⟩ "ID EstacionReplica"
      = rep.map (fun n => Value.int (Int.ofNat n)) := by
  cases rep with
  | none => rfl
  | some n => rfl

theorem joinReplica_mem_nomatch (est : List EstacionRow) (regs : List Doc) (d : Doc)
    (hd : d ∈ regs)
    (hcol : regs.any (fun x => (getField x "estacionID").isSome) = true)
    (hno : ∀ e ∈ est, strStationId e.estacionID ≠ regKey d) :
    (⟨d, none⟩ : JoinedReg) ∈ joinReplica est regs := by
  unfold joinReplica
  rw [hcol]
  simp only [if_true]
  apply List.mem_flatMap.mpr
  refine ⟨d, hd, ?_⟩
  have hfil : est.filter (fun e => strStationId e.estacionID == regKey d) = [] := by
    apply List.filter_eq_nil_iff.mpr
    intro e he
    simpa using hno e he
  simp [hfil]

theorem joinReplica_mem_match (est : List EstacionRow) (regs : List Doc) (d : Doc)
    (e : EstacionRow) (hd : d ∈ regs) (he : e ∈ est)
    (hcol : regs.any (fun x => (getField x "estacionID").isSome) = true)
    (heq : strStationId e.estacionID = regKey d) :
    (⟨d, e.numeroReplica⟩ : JoinedReg) ∈ joinReplica est regs := by
  unfold joinReplica
  have hmem : e ∈ est.filter (fun x => strStationId x.estacionID == regKey d) := by
    apply List.mem_filter.mpr
    exact ⟨he, by simpa using heq⟩
  have hne : (est.filter (fun x => strStationId x.estacionID == regKey d)).isEmpty = false := by
    cases hfil : est.filter (fun x => strStationId x.estacionID == regKey d) with
    | nil => rw [hfil] at hmem; exact absurd hmem (by simp)
    | cons a l => simp
  rw [hcol]
  simp only [if_true]
  apply List.mem_flatMap.mpr
  refine ⟨d, hd, ?_⟩
  rw [hne]
  simp only [Bool.false_eq_true, if_false]
  exact List.mem_map_of_mem (fun x => JoinedReg.mk d x.numeroReplica) hmem

theorem joinReplica_nocol (est : List EstacionRow) (regs : List Doc) (d : Doc)
    (hd : d ∈ regs)
    (hcol : regs.any (fun x => (getField x "estacionID").isSome) = false) :
    (⟨d, none⟩ : JoinedReg) ∈ joinReplica est regs := by
  unfold joinReplica
  rw [hcol]
  simp only [Bool.false_eq_true, if_false]
  exact List.mem_map_of_mem (fun x => JoinedReg.mk x none) hd

theorem joinReplica_length (est : List EstacionRow) (regs : List Doc)
    (hcol : regs.any (fun x => (getField x "estacionID").isSome) = true) :
    (joinReplica est regs).length =
      (regs.map (fun d =>
        max 1 (est.countP (fun e => strStationId e.estacionID == regKey d)))).sum := by
  unfold joinReplica
  rw [hcol]
  simp only [if_true]
  rw [List.length_flatMap]
  congr 1
  apply List.map_congr_left
  intro d _
  cases hfil : est.filter (fun e => strStationId e.estacionID == regKey d) with
  | nil =>
    have hcount : est.countP (fun e => strStationId e.estacionID == regKey d) = 0 := by
      rw [List.countP_eq_length_filter, hfil]
      rfl
    simp [Function.comp, hfil, hcount]
  | cons a l =>
    have hcount : est.countP (fun e => strStationId e.estacionID == regKey d)
        = l.length + 1 := by
      rw [List.countP_eq_length_filter, hfil]
      rfl
    simp only [Function.comp, hfil, hcount, List.isEmpty_cons, Bool.false_eq_true, if_false,
      List.length_map, List.length_cons]
    omega

/-! ### Lemmas about `_safe_filename` -/

theorem collapseRuns_keep_aux : ∀ (n : Nat) (l : List Char), l.length ≤ n →
    ∀ c ∈ collapseRuns l, keepChar c = true := by
  intro n
  induction n with
  | zero =>
    intro l hl c hc
    have hnil : l = [] := List.eq_nil_of_length_eq_zero (by omega)
    subst hnil
    simp [collapseRuns] at hc
  | succ m ih =>
    intro l hl c hc
    cases l with
    | nil => simp [collapseRuns] at hc
    | cons a rest =>
      rw [collapseRuns] at hc
      have hlen : rest.length ≤ m := by
        simp only [List.length_cons] at hl
        omega
      by_cases ha : keepChar a
      · rw [if_pos ha] at hc
        rcases List.mem_cons.mp hc with h | h
        · subst h; exact ha
        · exact ih rest hlen c h
      · rw [if_neg ha] at hc
        rcases List.mem_cons.mp hc with h | h
        · subst h; decide
        · exact ih (rest.dropWhile (fun d => !keepChar d))
            (le_trans (length_dropWhile_le _ rest) hlen) c h

theorem collapseRuns_keep (l : List Char) : ∀ c ∈ collapseRuns l, keepChar c = true :=
  collapseRuns_keep_aux l.length l le_rfl

theorem stripHyphens_subset (l : List Char) : ∀ c ∈ stripHyphens l, c ∈ l := by
  intro c hc
  unfold stripHyphens at hc
  rw [List.mem_reverse] at hc
  have h1 := (List.dropWhile_suffix (fun x => x == '-')).subset hc
  rw [List.mem_reverse] at h1
  exact (List.dropWhile_suffix (fun x => x == '-')).subset h1

/-! ## Claims -/

/-- C1, counterexample: a fetched Station whose document has no `name`
field gets an ABSENT Replicate Number (`groupby` drops the NaN-keyed
row, `cumcount` leaves NaN there), not the `0 + 1` the claim's counting
rule assigns to a first occurrence, so the claim fails on this input. -/
theorem c1_replicate_counterexample :
    (estacionPass [[("estacionID", Value.str "E1")]]).map (fun r => r.numeroReplica) = [none]
    ∧ ([none] : List (Option Nat)) ≠ [some (0 + 1)] := by
  exact ⟨by decide, by decide⟩

/-- C1, amended: the Station pass keeps the rows in fetch order (the
names column equals the documents' na-filtered `name` fields in order)
and assigns row `i` a Replicate Number of one plus the number of earlier
rows whose display name equals row `i`'s display name — PROVIDED row
`i`'s display name is present; a row with an absent display name gets an
absent Replicate Number.  The claim's `["A","B","A"] ↦ [1,1,2]` example
is included. -/
theorem c1_replicate_numbering :
    (∀ docs : List Doc,
      (estacionPass docs).map (fun r => r.nombreEstacion) = stationNames docs
      ∧ (estacionPass docs).map (fun r => r.numeroReplica) =
          (List.range docs.length).map (fun i =>
            match (stationNames docs).get? i with
            | some (some v) =>
                some ((((stationNames docs).take i).countP (fun n => n == some v)) + 1)
            | _ => none))
    ∧ (estacionPass [[("name", Value.str "A")], [("name", Value.str "B")],
        [("name", Value.str "A")]]).map (fun r => r.numeroReplica)
        = [some 1, some 1, some 2] := by
  exact ⟨fun docs => estacionPass_spec docs, by decide⟩

/-- C2, counterexample: `astype(str)` converts the station pass's `None`
cell (a Station document with NO `estacionID` field) and a Record whose
`estacionID` is stored as Python `None` BOTH to the string `"None"`, so
the left join matches them: the Record ends up with the station's
Replicate Number `1` in "ID EstacionReplica" instead of the absent value
the claim requires for a missing identifier. -/
theorem c2_join_counterexample :
    (registroPass (estacionPass [[("name", Value.str "A")]]) [[("estacionID", Value.null)]]).map
        (fun j => registroCell j "ID EstacionReplica") = [some (Value.int 1)]
    ∧ some (Value.int 1) ≠ (none : Option Value) := by
  exact ⟨by decide, by decide⟩

/-- C2, amended: the left join compares station identifiers AFTER
Python `str` conversion (an absent station identifier becomes `"None"`,
a record identifier missing from the document becomes `"nan"`, a record
identifier stored as `None` becomes `"None"`).  A Record whose converted
key matches no station row keeps a single output row with an absent
"ID EstacionReplica"; a Record whose converted key matches a station row
gets that row's Replicate Number emitted in "ID EstacionReplica"; and
when no record document carries the `estacionID` key at all, every
Record gets an absent value. -/
theorem c2_station_replica_join (est : List EstacionRow) (regs : List Doc) (d : Doc)
    (hd : d ∈ regs) :
    (regs.any (fun x => (getField x "estacionID").isSome) = true →
      (∀ e ∈ est, strStationId e.estacionID ≠ regKey d) →
      (⟨d, none⟩ : JoinedReg) ∈ registroPass est regs
        ∧ registroCell ⟨d, none⟩ "ID EstacionReplica" = none)
    ∧ (regs.any (fun x => (getField x "estacionID").isSome) = true →
      ∀ e ∈ est, strStationId e.estacionID = regKey d →
      (⟨d, e.numeroReplica⟩ : JoinedReg) ∈ registroPass est regs
        ∧ registroCell ⟨d, e.numeroReplica⟩ "ID EstacionReplica"
            = e.numeroReplica.map (fun n => Value.int (Int.ofNat n)))
    ∧ (regs.any (fun x => (getField x "estacionID").isSome) = false →
      (⟨d, none⟩ : JoinedReg) ∈ registroPass est regs
        ∧ registroCell ⟨d, none⟩ "ID EstacionReplica" = none) := by
  refine ⟨fun hcol hno => ⟨joinReplica_mem_nomatch est regs d hd hcol hno, rfl⟩,
    fun hcol e he heq => ⟨joinReplica_mem_match est regs d e hd he hcol heq,
      registroCell_idEstacionReplica d e.numeroReplica⟩,
    fun hcol => ⟨joinReplica_nocol est regs d hd hcol, rfl⟩⟩

/-- C2, witness: concrete application — one station (name "A", id "E1",
replicate 1), one record with the non-matching id "E2": the record's
joined row carries an absent "ID EstacionReplica". -/
theorem c2_station_replica_join_witness :
    (⟨[("estacionID", Value.str "E2")], none⟩ : JoinedReg)
      ∈ registroPass (estacionPass [[("name", Value.str "A"), ("estacionID", Value.str "E1")]])
          [[("estacionID", Value.str "E2")]]
    ∧ registroCell ⟨[("estacionID", Value.str "E2")], none⟩ "ID EstacionReplica" = none := by
  exact (c2_station_replica_join
    (estacionPass [[("name", Value.str "A"), ("estacionID", Value.str "E1")]])
    [[("estacionID", Value.str "E2")]] [("estacionID", Value.str "E2")]
    (by decide)).1 (by decide) (by decide)

/-- C5: every Record-pass output row carries the constant string
`"AMS Consultores"` in "Identificado por" and in "Comentarios de la
Identificación", whatever the merged record row contains — the constant
branch fires before the mapping/space-fill branches. -/
theorem c5_constant_override (j : JoinedReg) :
    registroCell j "Identificado por" = some (Value.str "AMS Consultores")
    ∧ registroCell j "Comentarios de la Identificación" = some (Value.str "AMS Consultores") :=
  ⟨rfl, rfl⟩

/-- C6: `get_lat`/`get_lon` return the same result on a key-based
(`geoDict`) and an attribute-based (`geoObj`) point carrying the same
payload; a Python `None` point and a float-NaN point extract to `none`;
and both passes produce absent coordinate cells for a null or missing
point (the functions are total, so extraction never raises). -/
theorem c6_geo_extraction :
    (∀ lat lon : Option Int,
      get_lat (Value.geoDict lat lon) = get_lat (Value.geoObj lat lon)
      ∧ get_lon (Value.geoDict lat lon) = get_lon (Value.geoObj lat lon))
    ∧ (get_lat Value.null = none ∧ get_lon Value.null = none
      ∧ get_lat Value.nan = none ∧ get_lon Value.nan = none)
    ∧ (∀ (i : Nat) (rest : List (String × Value)),
      (mkEstacionRow i (("coordinatesPlani", Value.null) :: rest)).latitud = none
      ∧ (mkEstacionRow i (("coordinatesPlani", Value.null) :: rest)).longitud = none
      ∧ (mkEstacionRow i (("coordinatesPlani", Value.nan) :: rest)).latitud = none
      ∧ (mkEstacionRow i []).latitud = none
      ∧ (mkEstacionRow i []).longitud = none)
    ∧ (∀ (rep : Option Nat) (rest : List (String × Value)),
      registroCell ⟨("coordinatesReg", Value.null) :: rest, rep⟩ "Latitud decimal registro" = none
      ∧ registroCell ⟨("coordinatesReg", Value.null) :: rest, rep⟩ "Longitud decimal registro" = none
      ∧ registroCell ⟨[], rep⟩ "Latitud decimal registro" = none) := by
  exact ⟨fun lat lon => ⟨rfl, rfl⟩, ⟨rfl, rfl, rfl, rfl⟩,
    fun i rest => ⟨rfl, rfl, rfl, rfl, rfl⟩, fun rep rest => ⟨rfl, rfl, rfl⟩⟩

/-- C3: the `numero_registro` literal declares position 43 twice (for
"Comentarios del registro biológico" and then "Muestreado por"); after
Python dict evaluation only the later name survives at 43, no key 44
exists, "Comentarios del registro biológico" is bound to no position,
and the writer — iterating the declared positions in ascending order —
never writes column 44 of the Occurrence sheet and writes each data
row's "Muestreado por" value at column 43. -/
theorem c3_duplicate_position :
    ((43, "Comentarios del registro biológico") ∈ numero_registro_entries
      ∧ (43, "Muestreado por") ∈ numero_registro_entries)
    ∧ ((numero_registro.find? (fun p => p.1 == 43)).map Prod.snd = some "Muestreado por")
    ∧ (∀ p ∈ numero_registro, p.1 ≠ 44)
    ∧ (∀ p ∈ numero_registro, p.2 ≠ "Comentarios del registro biológico")
    ∧ ((43, "Muestreado por") ∈ sortedRegCols
      ∧ ∀ p ∈ sortedRegCols, p.2 ≠ "Comentarios del registro biológico")
    ∧ (∀ (tpl : Sheet) (jt : List JoinedReg) (r : Nat),
        cellAt (escribirOcurrencia tpl jt) r 44 = cellAt (tpl.take 2) r 44)
    ∧ (∀ (tpl : Sheet) (jt : List JoinedReg) (i : Nat) (j : JoinedReg),
        jt.get? i = some j →
        cellAt (escribirOcurrencia tpl jt) (3 + i) 43
          = some (registroCell j "Muestreado por")) := by
  refine ⟨by decide, by decide, by decide, by decide, ⟨by decide, by decide⟩, ?_, ?_⟩
  · intro tpl jt r
    unfold escribirOcurrencia
    apply cellAt_writeTable_ne_col
    intro cells hcells p hp
    rcases List.mem_map.mp hcells with ⟨j, _, hj⟩
    subst hj
    rcases List.mem_map.mp hp with ⟨q, hq, hpq⟩
    subst hpq
    have h44 : ∀ q ∈ sortedRegCols, q.1 ≠ 44 := by decide
    exact h44 q hq
  · intro tpl jt i j hj
    unfold escribirOcurrencia
    have hrows : (jt.map (fun j => sortedRegCols.map (fun p => (p.1, registroCell j p.2)))).get? i
        = some (sortedRegCols.map (fun p => (p.1, registroCell j p.2))) := by
      rw [List.get?_map, hj]
      rfl
    rw [cellAt_writeTable_at _ (tpl.take 2) 3 i 43 _ hrows (by omega)]
    have hlook : lookupLast (sortedRegCols.map (fun p => (p.1, registroCell j p.2))) 43
        = some (registroCell j "Muestreado por") := rfl
    rw [hlook]

/-- C3, witness: one joined record row over an empty-source document —
its "Muestreado por" output cell is the space filler, written at column
43 of sheet row 3, and column 44 of that row stays unwritten. -/
theorem c3_duplicate_position_witness :
    cellAt (escribirOcurrencia [emptyRow, emptyRow] [⟨[], none⟩]) (3 + 0) 43
      = some (registroCell ⟨[], none⟩ "Muestreado por")
    ∧ cellAt (escribirOcurrencia [emptyRow, emptyRow] [⟨[], none⟩]) 3 44
      = cellAt ([emptyRow, emptyRow].take 2) 3 44 := by
  exact ⟨c3_duplicate_position.2.2.2.2.2.2 [emptyRow, emptyRow] [⟨[], none⟩] 0 ⟨[], none⟩ rfl,
    c3_duplicate_position.2.2.2.2.2.1 [emptyRow, emptyRow] [⟨[], none⟩] 3⟩

/-- C4: `generar_excel_fauna_like` raises the 404 `HTTPException`
exactly when the fetched `campana` collection is empty; with at least
one campaign document and the template present, empty `estacion` and
`registro` collections still yield a saved workbook whose
EstacionReplica sheet has no cells below row 1 and whose Ocurrencia
sheet has no cells below row 2. -/
theorem c4_campaign_notfound (tE : Bool) (tpl : Workbook) (cid hex : String)
    (campDocs estDocs regDocs : List Doc) :
    ((∃ d, generar_excel_fauna_like tE tpl cid hex campDocs estDocs regDocs
        = .error (.httpException 404 d)) ↔ campDocs = [])
    ∧ (campDocs ≠ [] → ∃ wb,
        generar_excel_fauna_like true tpl cid hex campDocs [] [] = .ok (wb, out_name cid hex)
        ∧ (∀ r c : Nat, 2 ≤ r → cellAt wb.est r c = none)
        ∧ (∀ r c : Nat, 3 ≤ r → cellAt wb.ocur r c = none)) := by
  constructor
  · constructor
    · rintro ⟨d, hd⟩
      cases campDocs with
      | nil => rfl
      | cons camp rest =>
        exfalso
        cases tE with
        | true => simp [generar_excel_fauna_like] at hd
        | false =>
          simp only [generar_excel_fauna_like, Bool.false_eq_true, if_false,
            Except.error.injEq, PyErr.httpException.injEq] at hd
          omega
    · intro h
      subst h
      exact ⟨"No hay documentos en 'campana' para ese campanaID.", rfl⟩
  · intro h
    cases campDocs with
    | nil => exact absurd rfl h
    | cons camp rest =>
      refine ⟨escribirExcel tpl [campanaRow camp] [] [], rfl, ?_, ?_⟩
      · intro r c hr
        exact cellAt_take_none tpl.est 1 r c (by omega)
      · intro r c hr
        exact cellAt_take_none tpl.ocur 2 r c (by omega)

/-- C4, witness: a one-document campaign with empty stations and
records produces the workbook; an empty campaign produces the 404. -/
theorem c4_campaign_notfound_witness :
    (∃ wb, generar_excel_fauna_like true ⟨[], [], []⟩ "camp" "abc123"
        [[("name", Value.str "C")]] [] [] = .ok (wb, out_name "camp" "abc123")
      ∧ (∀ r c : Nat, 2 ≤ r → cellAt wb.est r c = none)
      ∧ (∀ r c : Nat, 3 ≤ r → cellAt wb.ocur r c = none))
    ∧ (∃ d, generar_excel_fauna_like true ⟨[], [], []⟩ "camp" "abc123" [] [] []
        = .error (.httpException 404 d)) := by
  constructor
  · exact (c4_campaign_notfound true ⟨[], [], []⟩ "camp" "abc123"
      [[("name", Value.str "C")]] [] []).2 (by simp)
  · exact (c4_campaign_notfound true ⟨[], [], []⟩ "camp" "abc123" [] [] []).1.mpr rfl

/-- C7, counterexample: the writer performs no row deletion on the
`Campaña` sheet.  A template whose Campaña sheet carries stale data in
row 4 keeps that row verbatim in the output (the single campaign row is
written at row 3 only), so "clears any existing data rows in each of the
three target sheets" fails for `Campaña`. -/
theorem c7_clear_counterexample :
    cellAt (escribirExcel
        ⟨[emptyRow, emptyRow, emptyRow, fun c => if c = 1 then some (some (Value.str "stale")) else none],
         [emptyRow], [emptyRow, emptyRow]⟩
        [campanaRow [("name", Value.str "Camp")]] [] []).camp 4 1
      = some (some (Value.str "stale"))
    ∧ some (some (Value.str "stale")) ≠ (none : Option CellVal) := by
  exact ⟨by decide, by decide⟩

/-- C7, amended: the writer clears the existing data rows of
`EstacionReplica` (everything below row 1) and of `Ocurrencia`
(everything below row 2) before writing — below the written data no cell
remains, and inside data rows only declared columns are written — but it
does NOT clear the `Campaña` sheet: every row below the written campaign
rows passes through from the template unchanged. -/
theorem c7_clear_rows (tpl : Workbook) (ct : List CampanaRow) (et : List EstacionRow)
    (jt : List JoinedReg) :
    (∀ r c : Nat, 2 + et.length ≤ r → cellAt (escribirExcel tpl ct et jt).est r c = none)
    ∧ (∀ r c : Nat, 2 ≤ r → (∀ p ∈ numeros_estacion, p.2 ≠ c) →
        cellAt (escribirExcel tpl ct et jt).est r c = none)
    ∧ (∀ r c : Nat, 3 + jt.length ≤ r → cellAt (escribirExcel tpl ct et jt).ocur r c = none)
    ∧ (∀ r c : Nat, 3 + ct.length ≤ r →
        cellAt (escribirExcel tpl ct et jt).camp r c = cellAt tpl.camp r c) := by
  refine ⟨?_, ?_, ?_, ?_⟩
  · intro r c hr
    show cellAt (escribirEstacion tpl.est et) r c = none
    unfold escribirEstacion
    rw [cellAt_writeTable_ge _ _ 2 r c (by omega) (by simpa using hr)]
    exact cellAt_take_none tpl.est 1 r c (by omega)
  · intro r c hr hcols
    show cellAt (escribirEstacion tpl.est et) r c = none
    unfold escribirEstacion
    rw [cellAt_writeTable_ne_col]
    · exact cellAt_take_none tpl.est 1 r c (by omega)
    · intro cells hcells p hp
      rcases List.mem_map.mp hcells with ⟨row, _, hrow⟩
      subst hrow
      rcases List.mem_map.mp hp with ⟨q, hq, hpq⟩
      subst hpq
      exact hcols q hq
  · intro r c hr
    show cellAt (escribirOcurrencia tpl.ocur jt) r c = none
    unfold escribirOcurrencia
    rw [cellAt_writeTable_ge _ _ 3 r c (by omega) (by simpa using hr)]
    exact cellAt_take_none tpl.ocur 2 r c (by omega)
  · intro r c hr
    show cellAt (escribirCampana tpl.camp ct) r c = cellAt tpl.camp r c
    unfold escribirCampana
    rw [cellAt_writeTable_ge _ _ 3 r c (by omega) (by simpa using hr)]

/-- C7, witness: with the stale-row template, one campaign row and
empty station/occurrence tables, the stale Campaña cell at row 4 passes
through, while row 2 of EstacionReplica and row 3 of Ocurrencia are
empty. -/
theorem c7_clear_rows_witness :
    cellAt (escribirExcel
        ⟨[emptyRow, emptyRow, emptyRow, fun c => if c = 1 then some (some (Value.str "stale")) else none],
         [emptyRow], [emptyRow, emptyRow]⟩
        [campanaRow [("name", Value.str "Camp")]] [] []).camp 4 2
      = cellAt [emptyRow, emptyRow, emptyRow,
          fun c => if c = 1 then some (some (Value.str "stale")) else none] 4 2
    ∧ cellAt (escribirExcel
        ⟨[emptyRow, emptyRow, emptyRow, fun c => if c = 1 then some (some (Value.str "stale")) else none],
         [emptyRow], [emptyRow, emptyRow]⟩
        [campanaRow [("name", Value.str "Camp")]] [] []).est 2 5 = none := by
  constructor
  · exact (c7_clear_rows
      ⟨[emptyRow, emptyRow, emptyRow, fun c => if c = 1 then some (some (Value.str "stale")) else none],
       [emptyRow], [emptyRow, emptyRow]⟩
      [campanaRow [("name", Value.str "Camp")]] [] []).2.2.2 4 2 (by simp)
  · exact (c7_clear_rows
      ⟨[emptyRow, emptyRow, emptyRow, fun c => if c = 1 then some (some (Value.str "stale")) else none],
       [emptyRow], [emptyRow, emptyRow]⟩
      [campanaRow [("name", Value.str "Camp")]] [] []).1 2 5 (by simp)

/-- C8: the export boundary re-raises `HTTPException`s unchanged (so
the 404 of an empty campaign and the 500 of a missing template surface
with their own status and detail), wraps any other exception as a 500
whose detail embeds the original message, and on success returns the
JSON object with the absolute download URL for the saved filename. -/
theorem c8_error_propagation (base cid hex : String) (tE : Bool) (tpl : Workbook)
    (campDocs estDocs regDocs : List Doc) (s : Nat) (dtl m : String) :
    (export_excel base (.error (.httpException s dtl)) = .httpError s dtl)
    ∧ (export_excel base (.error (.otherError m))
        = .httpError 500 ("Error generando Excel: " ++ m)
      ∧ ∃ pre, "Error generando Excel: " ++ m = pre ++ m)
    ∧ (campDocs = [] →
        export_excel base
            ((generar_excel_fauna_like tE tpl cid hex campDocs estDocs regDocs).map Prod.snd)
          = .httpError 404 "No hay documentos en 'campana' para ese campanaID.")
    ∧ (campDocs ≠ [] →
        export_excel base
            ((generar_excel_fauna_like false tpl cid hex campDocs estDocs regDocs).map Prod.snd)
          = .httpError 500 ("No se encontró la plantilla: " ++ templateName))
    ∧ (campDocs ≠ [] →
        export_excel base
            ((generar_excel_fauna_like true tpl cid hex campDocs estDocs regDocs).map Prod.snd)
          = .jsonDownloadUrl (base ++ "/download/" ++ out_name cid hex)) := by
  refine ⟨rfl, ⟨rfl, ⟨"Error generando Excel: ", rfl⟩⟩, ?_, ?_, ?_⟩
  · intro h
    subst h
    rfl
  · intro h
    cases campDocs with
    | nil => exact absurd rfl h
    | cons camp rest => rfl
  · intro h
    cases campDocs with
    | nil => exact absurd rfl h
    | cons camp rest => rfl

/-- C8, witness: concrete checks — a 404 `HTTPException` passes through,
and a successful one-campaign export returns the JSON download URL. -/
theorem c8_error_propagation_witness :
    export_excel "http://h" (.error (.httpException 404 "x")) = .httpError 404 "x"
    ∧ export_excel "http://h"
        ((generar_excel_fauna_like true ⟨[], [], []⟩ "c" "abc123"
          [[("name", Value.str "N")]] [] []).map Prod.snd)
        = .jsonDownloadUrl ("http://h" ++ "/download/" ++ out_name "c" "abc123") := by
  exact ⟨(c8_error_propagation "http://h" "c" "abc123" true ⟨[], [], []⟩
      [[("name", Value.str "N")]] [] [] 404 "x" "m").1,
    (c8_error_propagation "http://h" "c" "abc123" true ⟨[], [], []⟩
      [[("name", Value.str "N")]] [] [] 404 "x" "m").2.2.2.2 (by simp)⟩

/-- C9: every generated filename is
`Flora_<sanitized>_<suffix>.xlsx`; the sanitized campaign id contains
only word characters and hyphens and is never empty (it falls back to
`"file"` when stripping leaves nothing); and two exports whose sampled
random suffixes differ produce distinct filenames, so one request's file
does not overwrite another's. -/
theorem c9_filename (cid h1 h2 : String) :
    out_name cid h1 = "Flora_" ++ _safe_filename cid ++ "_" ++ h1 ++ ".xlsx"
    ∧ (∀ c ∈ (_safe_filename cid).data, isWordChar c = true ∨ c = '-')
    ∧ _safe_filename cid ≠ ""
    ∧ (stripHyphens (collapseRuns cid.data) = [] → _safe_filename cid = "file")
    ∧ (h1 ≠ h2 → out_name cid h1 ≠ out_name cid h2) := by
  refine ⟨rfl, ?_, ?_, ?_, ?_⟩
  · intro c hc
    by_cases hstr : (stripHyphens (collapseRuns cid.data)).isEmpty
    · have hfile : _safe_filename cid = "file" := by
        unfold _safe_filename
        rw [if_pos hstr]
      rw [hfile] at hc
      have hall : ∀ x ∈ "file".data, isWordChar x = true := by decide
      exact Or.inl (hall c hc)
    · have hdata : (_safe_filename cid).data = stripHyphens (collapseRuns cid.data) := by
        unfold _safe_filename
        rw [if_neg hstr]
      rw [hdata] at hc
      have h1 := stripHyphens_subset (collapseRuns cid.data) c hc
      have h2 := collapseRuns_keep cid.data c h1
      unfold keepChar at h2
      rcases Bool.or_eq_true_iff.mp h2 with h | h
      · exact Or.inl h
      · exact Or.inr (by simpa using h)
  · by_cases hstr : (stripHyphens (collapseRuns cid.data)).isEmpty
    · have hfile : _safe_filename cid = "file" := by
        unfold _safe_filename
        rw [if_pos hstr]
      rw [hfile]
      decide
    · have hdata : (_safe_filename cid).data = stripHyphens (collapseRuns cid.data) := by
        unfold _safe_filename
        rw [if_neg hstr]
      intro hempty
      apply hstr
      have : (_safe_filename cid).data = [] := by rw [hempty]
      rw [hdata] at this
      rw [this]
      rfl
  · intro h
    unfold _safe_filename
    rw [h]
    rfl
  · intro hne heq
    apply hne
    apply String.ext
    have hd := congrArg String.data heq
    simp only [out_name, String.data_append, List.append_assoc] at hd
    exact List.append_cancel_right
      (List.append_cancel_left (List.append_cancel_left (List.append_cancel_left hd)))

/-- C9, witness: two 6-hex suffixes for the same campaign id give
distinct filenames. -/
theorem c9_filename_witness :
    out_name "camp id" "aaaaaa" ≠ out_name "camp id" "bbbbbb" := by
  exact (c9_filename "camp id" "aaaaaa" "bbbbbb").2.2.2.2 (by decide)

/-- C10: with the `estacionID` column present, the left join emits, for
every Record in order, one row per matching station row (or a single
unmatched row), so the joined length is the sum over Records of
`max 1 (number of matching stations)`; concretely, two stations sharing
the id `"E1"` duplicate the single matching Record into two Occurrence
rows — strictly more output rows than fetched Record documents. -/
theorem c10_join_duplicates :
    (∀ (est : List EstacionRow) (regs : List Doc),
      regs.any (fun x => (getField x "estacionID").isSome) = true →
      (registroPass est regs).length =
        (regs.map (fun d =>
          max 1 (est.countP (fun e => strStationId e.estacionID == regKey d)))).sum)
    ∧ (registroPass (estacionPass [[("name", Value.str "A"), ("estacionID", Value.str "E1")],
          [("name", Value.str "B"), ("estacionID", Value.str "E1")]])
        [[("estacionID", Value.str "E1")]]).length = 2
    ∧ ([[("estacionID", Value.str "E1")]] : List Doc).length
        < (registroPass (estacionPass [[("name", Value.str "A"), ("estacionID", Value.str "E1")],
            [("name", Value.str "B"), ("estacionID", Value.str "E1")]])
          [[("estacionID", Value.str "E1")]]).length := by
  exact ⟨fun est regs hcol => joinReplica_length est regs hcol, by decide, by decide⟩

/-- C10, witness: the length formula applied at the duplicated-station
input. -/
theorem c10_join_duplicates_witness :
    (registroPass (estacionPass [[("name", Value.str "A"), ("estacionID", Value.str "E1")],
        [("name", Value.str "B"), ("estacionID", Value.str "E1")]])
      [[("estacionID", Value.str "E1")]]).length =
      (([[("estacionID", Value.str "E1")]] : List Doc).map (fun d =>
        max 1 ((estacionPass [[("name", Value.str "A"), ("estacionID", Value.str "E1")],
          [("name", Value.str "B"), ("estacionID", Value.str "E1")]]).countP
            (fun e => strStationId e.estacionID == regKey d)))).sum := by
  exact c10_join_duplicates.1
    (estacionPass [[("name", Value.str "A"), ("estacionID", Value.str "E1")],
      [("name", Value.str "B"), ("estacionID", Value.str "E1")]])
    [[("estacionID", Value.str "E1")]] (by decide)

end DwCFlora
